import Mathlib

/-!
Verification of the game customization layer: login throttling, guest
account selection, command-set assembly, the exit/path movement subsystem
and its control commands, the pre-login encoding command, character
provisioning locks, and the worker process pool plugin.

Each definition is a shallow embedding of the corresponding Python code in
the repository (`commands/prelogin.py`, `typeclasses/exits.py`,
`NOWMU/NOW/commands/default_cmdsets.py`,
`contrib/procpools/python_procpool_plugin.py`).  Python `None`-able values
become `Option`, Python truthiness is made explicit, dictionary indexing
that can raise `KeyError` and attribute access that can raise
`AttributeError` return `Except`.
-/

/-- Python truthiness of an optional string: `None` and the empty string are falsy. -/
def optStrTruthy : Option String → Bool
  | none => false
  | some s => s != ""

/-- Python truthiness of an optional integer: `None` and `0` are falsy. -/
def optIntTruthy : Option Int → Bool
  | none => false
  | some n => n != 0

/-! ### C1: login throttle (`_throttle` in commands/prelogin.py, lines 39-81)

The throttle storage is a process-wide dict from address to a list of failure
timestamps (a missing address reads as the empty list, `defaultdict(list)`).
The model below takes the address's list directly and returns the function's
boolean result together with the address's list after the call.  Timestamps
are integers (`time.time()` floats in the source; only ordering and
subtraction are used). -/

/-- Shallow embedding of `_throttle`: given the calling address's stored fail
list, the current time, and the optional `maxlim`/`timeout` arguments, returns
`(throttled?, new fail list for this address)`.  Mirrors the source: check
mode runs only when both `maxlim` and `timeout` are truthy; in check mode the
list is inspected (`latest_fails and len(latest_fails) >= maxlim`, then
`now - latest_fails[-1] < timeout`); otherwise record mode appends the
current time. -/
def throttle (fails : List Int) (now : Int) (maxlim timeout : Option Int) : Bool × List Int :=
  if optIntTruthy maxlim && optIntTruthy timeout then
    if fails ≠ [] ∧ (maxlim.getD 0) ≤ (fails.length : Int) then
      if now - (fails.getLast?.getD 0) < timeout.getD 0 then
        (true, fails)
      else
        (false, [])
    else
      (false, fails)
  else
    (false, fails ++ [now])

/-- Modelled from the claim's words (maxlim 5, timeout 300): throttled exactly
when the stored list has at least 5 entries and the most recent one is less
than 300 seconds old, leaving the list untouched; at least 5 entries but the
most recent 300 or more seconds old resets the list; fewer than 5 entries is
not throttled and unchanged. -/
def throttle_per_claim (fails : List Int) (now : Int) : Bool × List Int :=
  if 5 ≤ fails.length then
    if now - (fails.getLast?.getD 0) < 300 then
      (true, fails)
    else
      (false, [])
  else
    (false, fails)

/-! ### C2: command bundle assembly (NOWMU/NOW/commands/default_cmdsets.py)

`default_cmdsets.py` line 20 reads
`from typeclasses.exits import CmdStop, CmdContinue, CmdBack, CmdSetSpeed`.
The module-level names actually bound in `typeclasses/exits.py` are listed
below (its imports plus its own definitions).  A Python `from ... import`
of a name the module does not bind raises `ImportError`, and then the
importing module (which defines `CharacterCmdSet` and its assembly) never
loads. -/

/-- Module-level names bound in `typeclasses/exits.py`: the imported names
(`DefaultExit`, `utils`, `Command`, `lazy_property`, `TraitHandler`,
`EffectHandler`) and the module's own definitions. -/
def exits_module_names : List String :=
  ["DefaultExit", "utils", "Command", "lazy_property", "TraitHandler", "EffectHandler",
   "MOVE_DELAY", "Exit", "SPEED_DESCS", "CmdSpeed", "CmdStop", "CmdContinue", "CmdBack"]

/-- Names requested from `typeclasses.exits` by `default_cmdsets.py` line 20. -/
def default_cmdsets_exits_import : List String :=
  ["CmdStop", "CmdContinue", "CmdBack", "CmdSetSpeed"]

/-- Outcome of loading a Python module whose `from ... import` list is checked
against the names the imported module binds. -/
inductive ModuleLoad where
  | loaded : ModuleLoad
  | importError (missing : String) : ModuleLoad
deriving DecidableEq

/-- Result of loading `NOWMU/NOW/commands/default_cmdsets.py`: the first name
in its import of `typeclasses.exits` that the exits module does not bind makes
the load raise `ImportError`; otherwise the module loads (and only then is
`CharacterCmdSet.at_cmdset_creation` available to assemble the bundle). -/
def default_cmdsets_load : ModuleLoad :=
  match default_cmdsets_exits_import.find? (fun n => !(exits_module_names.contains n)) with
  | some n => ModuleLoad.importError n
  | none => ModuleLoad.loaded

/-! ### C3: guest account name selection (`create_guest_account`, prelogin.py 110-130) -/

/-- Lower-casing used for the case-insensitive username comparison. -/
def py_lower (s : String) : String :=
  String.mk (s.data.map Char.toLower)

/-- Count of registered accounts whose username matches the query
case-insensitively (`AccountDB.objects.filter(username__iexact=q).count()`).
A `None` query compares against SQL NULL; usernames are never NULL, so the
count is 0. -/
def iexact_count (q : Option String) (registered : List String) : Nat :=
  match q with
  | none => 0
  | some s => (registered.filter (fun r => py_lower r == py_lower s)).length

/-- Loop body of the guest-name search as written in the source: the
accumulator `accountname` starts as `None`, and each iteration tests
`not AccountDB.objects.filter(username__iexact=accountname).count()` — note
the filter queries the accumulator, not the loop variable `name` — assigning
`accountname = name` and breaking when the test passes. -/
def find_guest_name_loop (acc : Option String) (names registered : List String) : Option String :=
  match names with
  | [] => acc
  | n :: rest =>
      if iexact_count acc registered == 0 then
        some n
      else
        find_guest_name_loop acc rest registered

/-- The guest-name search of `create_guest_account`, starting from
`accountname = None`. -/
def find_guest_name (guest_list registered : List String) : Option String :=
  find_guest_name_loop none guest_list registered

/-- Modelled from the claim's words: the first listed guest name whose
username is not already registered case-insensitively. -/
def find_guest_name_per_claim (guest_list registered : List String) : Option String :=
  guest_list.find? (fun n => iexact_count (some n) registered == 0)

/-- Outcome of `create_guest_account`. -/
inductive GuestOutcome where
  | disabled : GuestOutcome
  | bannedDisconnect : GuestOutcome
  | allInUse : GuestOutcome
  | created (name : String) : GuestOutcome
deriving DecidableEq

/-- Shallow embedding of `create_guest_account`: disabled guard, ban check on
the connecting address, then the guest-name search; `None` found name sends
the all-slots-in-use message, otherwise the account is created under the
found name. -/
def create_guest_account (enabled banned : Bool) (guest_list registered : List String) :
    GuestOutcome :=
  if !enabled then
    GuestOutcome.disabled
  else if banned then
    GuestOutcome.bannedDisconnect
  else
    match find_guest_name guest_list registered with
    | none => GuestOutcome.allInUse
    | some n => GuestOutcome.created n

/-! ### C4: delayed-traversal arrival callback (`move_callback` inside
`Exit.at_traverse`, exits.py 151-161)

On a failed arrival move the source runs
`if self.db.err_traverse: self.caller.msg(self.db.err_traverse)
 else: self.at_failed_traverse(traversing_object)`
where `self` is the Exit.  Exit objects are given no `caller` attribute
anywhere in the repository, so `self.caller` is modelled as an `Option`
that is `none` on every exit the repository can produce, and reading it
raises `AttributeError`. -/

/-- State of the path exit as seen by the arrival callback: its stored
`err_traverse` attribute and its `caller` attribute (never assigned on Exit
objects in this repository). -/
structure TravExit where
  err_traverse : Option String
  caller : Option Nat
deriving DecidableEq

/-- Effects the arrival callback can perform. -/
inductive CbEff where
  | removeMovingMarker : CbEff
  | afterTraverseHook : CbEff
  | msgTo (who : Nat) (text : String) : CbEff
  | failedTraverseHook : CbEff
deriving DecidableEq

/-- Shallow embedding of `move_callback`: on a successful move into the
destination it clears the delayed-movement marker and runs the
post-traversal hook; on failure, if `err_traverse` is truthy it sends that
text to `self.caller` (raising `AttributeError` when the exit has no such
attribute), else it calls the generic `at_failed_traverse` hook. -/
def move_callback (ex : TravExit) (moveSucceeds : Bool) : Except String (List CbEff) :=
  if moveSucceeds then
    Except.ok [CbEff.removeMovingMarker, CbEff.afterTraverseHook]
  else
    if optStrTruthy ex.err_traverse then
      match ex.caller with
      | some who => Except.ok [CbEff.msgTo who (ex.err_traverse.getD "")]
      | none => Except.error "AttributeError"
    else
      Except.ok [CbEff.failedTraverseHook]

/-! ### Movement speed tables (exits.py lines 16 and 180) -/

/-- `MOVE_DELAY = dict(stroll=16, walk=8, run=4, sprint=2, scamper=1)`. -/
def MOVE_DELAY : List (String × Nat) :=
  [("stroll", 16), ("walk", 8), ("run", 4), ("sprint", 2), ("scamper", 1)]

/-- `SPEED_DESCS = dict(stroll=..., walk=..., run=..., sprint=..., scamper=...)`. -/
def SPEED_DESCS : List (String × String) :=
  [("stroll", "strolling"), ("walk", "walking"), ("run", "running"),
   ("sprint", "sprinting"), ("scamper", "scampering")]

/-- Association-list lookup for the string-keyed dictionaries above. -/
def dictFind (table : List (String × String)) (k : String) : Option String :=
  match table.find? (fun p => p.1 == k) with
  | some p => some p.2
  | none => none

/-! ### C5: `speed` command with no argument (CmdSpeed.func, exits.py 195-208)

`speed = self.caller.db.move_speed or 8` followed by `SPEED_DESCS[speed]`:
the fallback value is the integer `8`, and indexing `SPEED_DESCS` with a key
it does not hold raises `KeyError`. -/

/-- Key used to index `SPEED_DESCS` in `CmdSpeed.func`: a stored speed string,
or the integer fallback 8 when `db.move_speed` is falsy. -/
inductive SpeedKey where
  | str (s : String) : SpeedKey
  | num (n : Nat) : SpeedKey
deriving DecidableEq

/-- Dictionary indexing `SPEED_DESCS[key]`: raises `KeyError` for a missing
string key and for any integer key (the dict holds only string keys). -/
def speed_descs_index : SpeedKey → Except String String
  | SpeedKey.str s =>
      match dictFind SPEED_DESCS s with
      | some d => Except.ok d
      | none => Except.error "KeyError"
  | SpeedKey.num _ => Except.error "KeyError"

/-- Shallow embedding of the no-argument branch of `CmdSpeed.func`:
`speed = self.caller.db.move_speed or 8` then the report message
`"You are set to move by %s." % SPEED_DESCS[speed]`. -/
def cmd_speed_noargs (move_speed : Option String) : Except String String :=
  let key : SpeedKey :=
    match move_speed with
    | some s => if s = "" then SpeedKey.num 8 else SpeedKey.str s
    | none => SpeedKey.num 8
  match speed_descs_index key with
  | Except.ok d => Except.ok ("You are set to move by " ++ d ++ ".")
  | Except.error e => Except.error e

/-! ### C10: `continue` departure label vs the traversal default
(CmdContinue.func exits.py 246-263, Exit.at_traverse exits.py 137-140) -/

/-- The `continue` command's departure announcement indexes
`SPEED_DESCS[caller.db.move_speed]` directly, with no `or` fallback and no
`.get` default: an unset (`None`) stored speed is not a key. -/
def cmd_continue_speed_label (move_speed : Option String) : Except String String :=
  match move_speed with
  | none => Except.error "KeyError"
  | some s =>
      match dictFind SPEED_DESCS s with
      | some d => Except.ok d
      | none => Except.error "KeyError"

/-- The traversal algorithm's speed:
`move_speed = traversing_object.db.move_speed or 'walk'`. -/
def at_traverse_move_speed (move_speed : Option String) : String :=
  match move_speed with
  | none => "walk"
  | some s => if s = "" then "walk" else s

/-- The traversal algorithm's delay: `MOVE_DELAY.get(move_speed, 8)`. -/
def at_traverse_move_delay (move_speed : Option String) : Nat :=
  match MOVE_DELAY.find? (fun p => p.1 == at_traverse_move_speed move_speed) with
  | some p => p.2
  | none => 8

/-- Truth of an `Except` carrying a successful lookup. -/
def except_ok (e : Except String String) : Bool :=
  match e with
  | Except.ok _ => true
  | Except.error _ => false

/-! ### C6: `back` command (CmdBack.func, exits.py 277-318) -/

/-- An exit as seen from inside a room by the `back` command. -/
structure BackExit where
  name : String
  destination : Option Nat
deriving DecidableEq

/-- The object the caller is standing in (`here`): its id, display name,
destination (set when it is an exit), its own location (`start`), and its
outgoing exits. -/
structure BackObj where
  id : Nat
  name : String
  destination : Option Nat
  location : Option Nat
  exits : List BackExit
deriving DecidableEq

/-- The character running `back`: current location object, transient
`ndb.last_location`, persisted `db.last_room`, `home`, and whether a
delayed-movement marker is active. -/
structure BackChar where
  location : Option BackObj
  ndb_last_location : Option Nat
  db_last_room : Option Nat
  home : Option Nat
  currently_moving : Bool
deriving DecidableEq

/-- Effects the `back` command can perform, in order. -/
inductive BackEff where
  | moveTo (target : Option Nat) : BackEff
  | msg (text : String) : BackEff
  | execCmd (command : String) : BackEff
deriving DecidableEq

/-- Python `a or b` on optional references (objects are truthy, `None` falsy). -/
def pyOrOpt (a b : Option Nat) : Option Nat :=
  match a with
  | some x => some x
  | none => b

/-- Shallow embedding of `CmdBack.func` as the ordered list of effects it
performs.  Follows the source exactly: the nowhere branch moves to
`ndb.last_location or db.last_room or home` and returns; the
inside-something branch (no destination) consults `db.last_room`, walks all
exits whose destination is the last room (executing each by name), or moves
directly when the room has no exits, or falls back toward `here.location`;
the inside-an-exit branch stops any in-flight move and reverses toward
`here.location`. -/
def cmdBack (char : BackChar) : List BackEff :=
  match char.location with
  | none =>
      [BackEff.moveTo (pyOrOpt char.ndb_last_location
        (pyOrOpt char.db_last_room char.home))]
  | some here =>
      match here.destination with
      | none =>
          match char.db_last_room with
          | some last_room =>
              if last_room ≠ here.id then
                if !here.exits.isEmpty then
                  (here.exits.filter (fun e => e.destination == some last_room)).map
                    (fun e => BackEff.execCmd e.name)
                else
                  [BackEff.msg "You go back the way you came.",
                   BackEff.moveTo (some last_room)]
              else
                []
          | none =>
              match here.location with
              | some start =>
                  [BackEff.msg ("You leave " ++ here.name ++ "."),
                   BackEff.moveTo (some start)]
              | none =>
                  [BackEff.msg ("You can not leave " ++ here.name ++ ".")]
      | some _ =>
          (if char.currently_moving then [BackEff.execCmd "stop"] else []) ++
            [BackEff.msg "You turn around and go back the way you came.",
             BackEff.moveTo here.location]

/-! ### C7: character provisioning locks and brief description
(`_create_character`, prelogin.py 605-631) -/

/-- The three lock rules built in `_create_character` from the character id
`cid` and account id `pid` (the tuple that the source joins with `;` and
hands to `locks.add`). -/
def lock_tuple (cid pid : Nat) : List String :=
  ["puppet:id(" ++ toString cid ++ ") or pid(" ++ toString pid ++ ") or perm(immortal)",
   "edit:id(" ++ toString cid ++ ") or pid(" ++ toString pid ++ ") or perm(wizard)",
   "control:id(" ++ toString cid ++ ") or pid(" ++ toString pid ++ ") or perm(immortal)"]

/-- `new_locks = ';'.join(...)`, the single string handed to `locks.add`. -/
def new_locks (cid pid : Nat) : String :=
  String.intercalate ";" (lock_tuple cid pid)

/-- The brief-description step of `_create_character`:
`if not new_character.db.desc_brief: ... = 'It looks like a new creature on the block.'`. -/
def set_default_desc_brief (d : Option String) : Option String :=
  if optStrTruthy d then d else some "It looks like a new creature on the block."

/-! ### C8: `encoding` command (CmdUnconnectedEncoding.func, prelogin.py 511-555) -/

/-- Message the encoding command reports. -/
inductive EncMsg where
  | cleared (old : String) : EncMsg
  | noCustom : EncMsg
  | listing : EncMsg
  | rejected (requested : String) (old : Option String) : EncMsg
  | changed (old : Option String) (new : String) : EncMsg
deriving DecidableEq

/-- Outcome of one invocation of the encoding command: the session's
`protocol_flags["ENCODING"]` afterwards, whether a session-portal
re-synchronization was triggered, and the message reported. -/
structure EncOutcome where
  flag : Option String
  sync : Bool
  msg : EncMsg
deriving DecidableEq

/-- Shallow embedding of `CmdUnconnectedEncoding.func`: the `clear` switch
sets the flag to `utf-8` and syncs; empty arguments only list; otherwise the
named encoding is validated by the round-trip test (`codec_ok`, the codec
registry being external) — failure keeps the previous flag with no sync,
success stores the argument and syncs. -/
def cmd_encoding (clear_switch : Bool) (args : String) (codec_ok : String → Bool)
    (flag : Option String) : EncOutcome :=
  if clear_switch then
    { flag := some "utf-8", sync := true,
      msg := if optStrTruthy flag then EncMsg.cleared (flag.getD "") else EncMsg.noCustom }
  else if args = "" then
    { flag := flag, sync := false, msg := EncMsg.listing }
  else if codec_ok args then
    { flag := some args, sync := true, msg := EncMsg.changed flag args }
  else
    { flag := flag, sync := false, msg := EncMsg.rejected args flag }

/-! ### C9: worker process pool plugin (contrib/procpools/python_procpool_plugin.py) -/

/-- `PROCPOOL_ENABLED = True`. -/
def PROCPOOL_ENABLED : Bool := true

/-- `PROCPOOL_MIN_NPROC = 5`. -/
def PROCPOOL_MIN_NPROC : Nat := 5

/-- `PROCPOOL_MAX_NPROC = 20`. -/
def PROCPOOL_MAX_NPROC : Nat := 20

/-- `PROCPOOL_TIMEOUT = 15`. -/
def PROCPOOL_TIMEOUT : Nat := 15

/-- `PROCPOOL_IDLETIME = 20`. -/
def PROCPOOL_IDLETIME : Nat := 20

/-- `PROCPOOL_PORT = 5001`. -/
def PROCPOOL_PORT : Nat := 5001

/-- `PROCPOOL_INTERFACE = '0.0.0.0'`. -/
def PROCPOOL_INTERFACE : String := "0.0.0.0"

/-- `SERVICE_NAME = "PythonProcPool"`. -/
def SERVICE_NAME : String := "PythonProcPool"

/-- Arguments the plugin passes to the `ProcessPool` constructor. -/
structure ProcessPoolArgs where
  name : String
  min : Nat
  max : Nat
  recycleAfter : Nat
  timeout : Nat
deriving DecidableEq

/-- Arguments the plugin passes to the `AMPouleService` constructor, plus the
name given through `setName`. -/
structure AMPouleServiceArgs where
  port : Nat
  interface : String
  serviceName : String
deriving DecidableEq

/-- Shallow embedding of `start_plugin_services`: nothing when disabled;
otherwise the pool construction
`ProcessPool(name=SERVICE_NAME, min=PROCPOOL_MIN_NPROC, max=PROCPOOL_MAX_NPROC,
recycleAfter=500, timeout=PROCPOOL_TIMEOUT, ...)` and the registered service
`AMPouleService(procpool, ..., PROCPOOL_PORT, PROCPOOL_INTERFACE)` named
`SERVICE_NAME`. -/
def start_plugin_services : Option (ProcessPoolArgs × AMPouleServiceArgs) :=
  if !PROCPOOL_ENABLED then
    none
  else
    some ({ name := SERVICE_NAME, min := PROCPOOL_MIN_NPROC, max := PROCPOOL_MAX_NPROC,
            recycleAfter := 500, timeout := PROCPOOL_TIMEOUT },
          { port := PROCPOOL_PORT, interface := PROCPOOL_INTERFACE,
            serviceName := SERVICE_NAME })

/-- The module-level configuration constants the body of
`start_plugin_services` references (in source order). -/
def procpool_config_reads : List String :=
  ["PROCPOOL_ENABLED", "PROCPOOL_PORT", "PROCPOOL_DEBUG", "PROCPOOL_DIRECTORY",
   "PROCPOOL_UID", "PROCPOOL_GID", "PROCPOOL_MIN_NPROC", "PROCPOOL_MAX_NPROC",
   "PROCPOOL_TIMEOUT", "PROCPOOL_INTERFACE", "SERVICE_NAME"]

/-! ## Theorems -/

/-- Claim C1: with `maxlim=5`, `timeout=300`, the throttle check returns
throttled exactly when the address's fail list has at least 5 entries and the
most recent is less than 300 seconds old (list untouched), resets the list and
returns not throttled when at least 5 entries are all 300 or more seconds
stale, and leaves a shorter list untouched; a record-mode call (no
maxlim/timeout) appends the current timestamp and returns not throttled. -/
theorem throttle_check_matches_claim (fails : List Int) (now : Int) :
    throttle fails now (some 5) (some 300) = throttle_per_claim fails now ∧
    throttle fails now none none = (false, fails ++ [now]) := by
  constructor
  · by_cases h5 : 5 ≤ fails.length
    · have hne : fails ≠ [] := by
        intro h
        rw [h] at h5
        simp at h5
      have h5i : (5 : Int) ≤ (fails.length : Int) := by exact_mod_cast h5
      simp [throttle, throttle_per_claim, optIntTruthy, hne, h5, h5i]
    · have h5i : ¬ (5 : Int) ≤ (fails.length : Int) := by exact_mod_cast h5
      simp [throttle, throttle_per_claim, optIntTruthy, h5, h5i]
  · simp [throttle, optIntTruthy]

/-- Claim C2 fails on the code: loading the command-bundle module raises
`ImportError` because it imports `CmdSetSpeed` from `typeclasses.exits`, which
binds `CmdSpeed` (the set-speed command) but no `CmdSetSpeed`; the character
bundle is therefore never assembled. -/
theorem cmdset_import_error :
    default_cmdsets_load = ModuleLoad.importError "CmdSetSpeed" ∧
    exits_module_names.contains "CmdSpeed" = true ∧
    exits_module_names.contains "CmdSetSpeed" = false := by
  decide

/-- Claim C3 fails on the code: with guest list `[Guest1, Guest2]` and
`guest1` already registered, the source's loop (which filters on the `None`
accumulator instead of the candidate name) selects `Guest1`, the taken name,
while the claim's first-unregistered-name rule selects `Guest2`; and with the
single listed name `Guest1` taken, the code still creates `Guest1` instead of
reporting all guest slots in use. -/
theorem guest_name_selection_bug :
    create_guest_account true false ["Guest1", "Guest2"] ["guest1"]
      = GuestOutcome.created "Guest1" ∧
    find_guest_name_per_claim ["Guest1", "Guest2"] ["guest1"] = some "Guest2" ∧
    create_guest_account true false ["Guest1"] ["guest1"]
      = GuestOutcome.created "Guest1" ∧
    find_guest_name_per_claim ["Guest1"] ["guest1"] = none := by
  refine ⟨rfl, ?_, rfl, ?_⟩ <;> decide

/-- Claim C4 fails on the code: when the arrival move fails and the exit has a
stored `err_traverse` message, the callback reads `self.caller` on the Exit —
an attribute no Exit in this repository carries — so it raises
`AttributeError` and delivers nothing to the traveler; only the
no-`err_traverse` branch reaches the generic failed-traversal hook, and a
successful move completes normally. -/
theorem move_callback_err_traverse_raises :
    move_callback { err_traverse := some "The bridge is out.", caller := none } false
      = Except.error "AttributeError" ∧
    move_callback { err_traverse := none, caller := none } false
      = Except.ok [CbEff.failedTraverseHook] ∧
    move_callback { err_traverse := some "The bridge is out.", caller := none } true
      = Except.ok [CbEff.removeMovingMarker, CbEff.afterTraverseHook] :=
  ⟨rfl, rfl, rfl⟩

/-- Claim C5 fails on the code: `speed` with no argument and no stored
move-speed preference evaluates `SPEED_DESCS[8]`, and the integer fallback 8
is not a key of the label table, so the command raises `KeyError` and sends no
report; with a stored named speed the single report is sent. -/
theorem cmd_speed_noargs_keyerror :
    cmd_speed_noargs none = Except.error "KeyError" ∧
    cmd_speed_noargs (some "walk") = Except.ok "You are set to move by walking." ∧
    cmd_speed_noargs (some "stroll") = Except.ok "You are set to move by strolling." :=
  ⟨rfl, rfl, rfl⟩

/-- Claim C6: when the caller of `back` has no current location, the command
performs exactly one effect — a move to the transient last location if set,
else the persisted last room if set, else home — and no other branch runs. -/
theorem cmd_back_nowhere_priority (c : BackChar) (h : c.location = none) :
    cmdBack c = [BackEff.moveTo
      (match c.ndb_last_location with
       | some l => some l
       | none =>
           match c.db_last_room with
           | some r => some r
           | none => c.home)] := by
  cases c with
  | mk loc ndb db home mv =>
      cases h
      cases ndb <;> cases db <;> simp [cmdBack, pyOrOpt]

/-- Witness for C6: a caller who is nowhere, with no transient last location
but a persisted last room 7 and home 9, is moved to room 7. -/
theorem cmd_back_nowhere_priority_witness :
    cmdBack { location := none, ndb_last_location := none, db_last_room := some 7,
              home := some 9, currently_moving := false } = [BackEff.moveTo (some 7)] := by
  simpa using cmd_back_nowhere_priority
    { location := none, ndb_last_location := none, db_last_room := some 7,
      home := some 9, currently_moving := false } rfl

/-- Claim C7: character provisioning sets exactly the three lock rules
`puppet:id(cid) or pid(pid) or perm(immortal)`,
`edit:id(cid) or pid(pid) or perm(wizard)` and
`control:id(cid) or pid(pid) or perm(immortal)` (joined with `;` into the
string handed to `locks.add`, shown splitting back at a concrete instance),
and a character with no brief description gets the non-absent default. -/
theorem character_locks_and_desc (cid pid : Nat) (d : Option String) :
    lock_tuple cid pid =
      ["puppet:id(" ++ toString cid ++ ") or pid(" ++ toString pid ++ ") or perm(immortal)",
       "edit:id(" ++ toString cid ++ ") or pid(" ++ toString pid ++ ") or perm(wizard)",
       "control:id(" ++ toString cid ++ ") or pid(" ++ toString pid ++ ") or perm(immortal)"] ∧
    (lock_tuple cid pid).length = 3 ∧
    new_locks 42 7 =
      "puppet:id(42) or pid(7) or perm(immortal);edit:id(42) or pid(7) or perm(wizard);control:id(42) or pid(7) or perm(immortal)" ∧
    (set_default_desc_brief d).isSome = true ∧
    set_default_desc_brief none = some "It looks like a new creature on the block." := by
  refine ⟨rfl, rfl, rfl, ?_, rfl⟩
  cases d with
  | none => rfl
  | some s =>
      unfold set_default_desc_brief
      split <;> rfl

/-- Claim C8: an encoding argument failing the round-trip validation leaves
the session's encoding flag unchanged, reports rejection, and triggers no
re-synchronization; a validated argument becomes the new flag, is reported,
and triggers re-synchronization; the clear switch always sets the flag to
utf-8 and triggers re-synchronization. -/
theorem encoding_command_behaviour (codec_ok : String → Bool) (flag : Option String)
    (args : String) (h : args ≠ "") :
    (codec_ok args = false →
      cmd_encoding false args codec_ok flag =
        { flag := flag, sync := false, msg := EncMsg.rejected args flag }) ∧
    (codec_ok args = true →
      cmd_encoding false args codec_ok flag =
        { flag := some args, sync := true, msg := EncMsg.changed flag args }) ∧
    (cmd_encoding true args codec_ok flag).flag = some "utf-8" ∧
    (cmd_encoding true args codec_ok flag).sync = true := by
  refine ⟨fun hc => ?_, fun hc => ?_, ?_, ?_⟩ <;>
    simp [cmd_encoding, h, *]

/-- Witness for C8: a session with custom encoding cp437 asking for the
unknown encoding bogus keeps cp437, is told of the rejection, and no
re-synchronization happens. -/
theorem encoding_command_behaviour_witness :
    cmd_encoding false "bogus" (fun s => s == "latin-1") (some "cp437") =
      { flag := some "cp437", sync := false,
        msg := EncMsg.rejected "bogus" (some "cp437") } :=
  (encoding_command_behaviour (fun s => s == "latin-1") (some "cp437") "bogus"
    (by decide)).1 (by decide)

/-- Claim C9: the enabled plugin constructs the pool with exactly min=5,
max=20, recycleAfter=500, timeout=15, registers the service named
PythonProcPool on port 5001, interface 0.0.0.0, and the idle-prune constant
PROCPOOL_IDLETIME (20 seconds) is read from no construction path in the
startup function. -/
theorem procpool_service_parameters :
    start_plugin_services =
      some ({ name := "PythonProcPool", min := 5, max := 20,
              recycleAfter := 500, timeout := 15 },
            { port := 5001, interface := "0.0.0.0", serviceName := "PythonProcPool" }) ∧
    PROCPOOL_IDLETIME = 20 ∧
    procpool_config_reads.contains "PROCPOOL_IDLETIME" = false := by
  decide

/-- Claim C10: the `continue` departure announcement looks the stored
move-speed up in the label table with no fallback — the lookup succeeds for
each of the five named speeds and has no defined result (KeyError) for an
unset speed — while the traversal algorithm substitutes walk (delay 8) when
the speed is unset. -/
theorem continue_speed_lookup_no_fallback :
    (SPEED_DESCS.all (fun p => except_ok (cmd_continue_speed_label (some p.1)))) = true ∧
    cmd_continue_speed_label none = Except.error "KeyError" ∧
    at_traverse_move_speed none = "walk" ∧
    at_traverse_move_delay none = 8 :=
  ⟨rfl, rfl, rfl, rfl⟩
